import Mathlib

/-!
Verification of the ambulance priority scoring core in
`src/ambulance/dynamic_ai.py`. Python integers are unbounded, so all
numeric inputs are modelled as `Int`; emergency types and category
labels are `String`s, matching the dictionary keys of the source.
The `decisions` dictionary lookup in `traffic_decision` raises a
`KeyError` on an unknown key, which is modelled as `Option.none`.
-/

namespace DynamicAI

/-- Embeds `base_medical_priority`: fixed severity table with default 2. -/
def base_medical_priority (emergency_type : String) : Int :=
  if emergency_type = "cardiac_arrest" then 5
  else if emergency_type = "stroke" then 4
  else if emergency_type = "severe_accident" then 4
  else if emergency_type = "trauma" then 3
  else if emergency_type = "minor_injury" then 1
  else 2

/-- Embeds `spo2_risk`. -/
def spo2_risk (spo2 : Int) : Int :=
  if spo2 < 85 then 3
  else if spo2 < 90 then 2
  else if spo2 < 94 then 1
  else 0

/-- Embeds `heart_rate_risk`. -/
def heart_rate_risk (hr : Int) : Int :=
  if hr < 40 ∨ hr > 130 then 2
  else if hr > 110 then 1
  else 0

/-- Embeds `deterioration_risk`. -/
def deterioration_risk (prev_spo2 curr_spo2 : Int) : Int :=
  let drop := prev_spo2 - curr_spo2
  if drop ≥ 5 then 2
  else if drop ≥ 2 then 1
  else 0

/-- Embeds `vital_risk_score`: sum of the three risks, clamped to 5. -/
def vital_risk_score (hr spo2 prev_spo2 : Int) : Int :=
  min (spo2_risk spo2 + heart_rate_risk hr + deterioration_risk prev_spo2 spo2) 5

/-- Embeds `time_to_hospital_risk`. -/
def time_to_hospital_risk (eta_minutes : Int) : Int :=
  if eta_minutes > 15 then 2
  else if eta_minutes > 8 then 1
  else 0

/-- Embeds `calculate_priority`: sum of the three sub-scores, clamped to 10. -/
def calculate_priority (emergency_type : String) (hr spo2 prev_spo2 eta : Int) : Int :=
  min (base_medical_priority emergency_type
        + vital_risk_score hr spo2 prev_spo2
        + time_to_hospital_risk eta) 10

/-- Embeds `priority_category`: high-to-low threshold cascade. -/
def priority_category (score : Int) : String :=
  if score ≥ 9 then "CRITICAL"
  else if score ≥ 7 then "VERY HIGH"
  else if score ≥ 5 then "HIGH"
  else if score ≥ 3 then "MEDIUM"
  else "LOW"

/-- Embeds `traffic_decision`: the `decisions` dictionary lookup.
A key outside the five categories raises `KeyError`, modelled as `none`. -/
def traffic_decision (priority_level : String) : Option String :=
  if priority_level = "CRITICAL" then
    some "Immediate green corridor (override all signals)"
  else if priority_level = "VERY HIGH" then
    some "Green corridor with maximum preference"
  else if priority_level = "HIGH" then
    some "Green at next signal cycle"
  else if priority_level = "MEDIUM" then
    some "Partial priority at intersections"
  else if priority_level = "LOW" then
    some "Normal traffic flow"
  else none

/-- Severity rank of a category label, used to state the spec's
monotonicity property: CRITICAL is most severe (4), LOW least (0). -/
def category_severity_rank (c : String) : Int :=
  if c = "CRITICAL" then 4
  else if c = "VERY HIGH" then 3
  else if c = "HIGH" then 2
  else if c = "MEDIUM" then 1
  else 0

lemma base_medical_priority_ge_one (e : String) : 1 ≤ base_medical_priority e := by
  unfold base_medical_priority
  split_ifs <;> norm_num

lemma base_medical_priority_le_five (e : String) : base_medical_priority e ≤ 5 := by
  unfold base_medical_priority
  split_ifs <;> norm_num

lemma spo2_risk_nonneg (s : Int) : 0 ≤ spo2_risk s := by
  unfold spo2_risk
  split_ifs <;> norm_num

lemma heart_rate_risk_nonneg (hr : Int) : 0 ≤ heart_rate_risk hr := by
  unfold heart_rate_risk
  split_ifs <;> norm_num

lemma deterioration_risk_nonneg (p c : Int) : 0 ≤ deterioration_risk p c := by
  unfold deterioration_risk
  dsimp only
  split_ifs <;> norm_num

lemma vital_risk_score_nonneg (hr s p : Int) : 0 ≤ vital_risk_score hr s p := by
  unfold vital_risk_score
  have h1 := spo2_risk_nonneg s
  have h2 := heart_rate_risk_nonneg hr
  have h3 := deterioration_risk_nonneg p s
  omega

lemma time_to_hospital_risk_nonneg (eta : Int) : 0 ≤ time_to_hospital_risk eta := by
  unfold time_to_hospital_risk
  split_ifs <;> norm_num

lemma rank_of_priority_category (s : Int) :
    category_severity_rank (priority_category s) =
      if s ≥ 9 then 4 else if s ≥ 7 then 3 else if s ≥ 5 then 2
      else if s ≥ 3 then 1 else 0 := by
  unfold priority_category
  split_ifs <;> decide

/-- C1: for every emergency_type string and all integer heart_rate, spo2,
previous_spo2, eta_minutes, `calculate_priority` returns a score in [0,10]:
the clamp to 10 saturates regardless of input magnitudes. -/
theorem calculate_priority_in_range (e : String) (hr spo2 prev_spo2 eta : Int) :
    0 ≤ calculate_priority e hr spo2 prev_spo2 eta ∧
    calculate_priority e hr spo2 prev_spo2 eta ≤ 10 := by
  unfold calculate_priority
  have h1 := base_medical_priority_ge_one e
  have h2 := vital_risk_score_nonneg hr spo2 prev_spo2
  have h3 := time_to_hospital_risk_nonneg eta
  omega

/-- C2: the vital risk aggregate is the sum of the spo2, heart-rate and
deterioration risks clamped to a maximum of 5, and never exceeds 5 even
when all three sub-risks are simultaneously maximal (raw sum 7, e.g.
hr = 9999, spo2 = 80, previous_spo2 = 90). -/
theorem vital_risk_score_clamped (hr spo2 prev_spo2 : Int) :
    vital_risk_score hr spo2 prev_spo2 ≤ 5 ∧
    vital_risk_score hr spo2 prev_spo2 =
      min (spo2_risk spo2 + heart_rate_risk hr + deterioration_risk prev_spo2 spo2) 5 ∧
    spo2_risk 80 = 3 ∧ heart_rate_risk 9999 = 2 ∧ deterioration_risk 90 80 = 2 ∧
    spo2_risk 80 + heart_rate_risk 9999 + deterioration_risk 90 80 = 7 ∧
    vital_risk_score 9999 80 90 = 5 := by
  refine ⟨?_, rfl, by decide⟩
  unfold vital_risk_score
  omega

/-- C3: `priority_category` is total — every integer score maps to one of
the five categories; on every integer score in [0,10] it takes the banded
value of the high-to-low cascade (≥9 CRITICAL, ≥7 VERY HIGH, ≥5 HIGH,
≥3 MEDIUM, else LOW); and severity is monotone non-decreasing in the
score, hence non-increasing as the score decreases. -/
theorem priority_category_total_monotone (s t : Int) (hst : s ≤ t) :
    (priority_category s = "CRITICAL" ∨ priority_category s = "VERY HIGH" ∨
     priority_category s = "HIGH" ∨ priority_category s = "MEDIUM" ∨
     priority_category s = "LOW") ∧
    category_severity_rank (priority_category s) ≤
      category_severity_rank (priority_category t) ∧
    priority_category 10 = "CRITICAL" ∧ priority_category 9 = "CRITICAL" ∧
    priority_category 8 = "VERY HIGH" ∧ priority_category 7 = "VERY HIGH" ∧
    priority_category 6 = "HIGH" ∧ priority_category 5 = "HIGH" ∧
    priority_category 4 = "MEDIUM" ∧ priority_category 3 = "MEDIUM" ∧
    priority_category 2 = "LOW" ∧ priority_category 1 = "LOW" ∧
    priority_category 0 = "LOW" := by
  refine ⟨?_, ?_, by decide⟩
  · unfold priority_category
    split_ifs <;> simp
  · rw [rank_of_priority_category s, rank_of_priority_category t]
    split_ifs <;> omega

/-- C3 witness at s = 3, t = 9. -/
theorem priority_category_total_monotone_witness :
    (3 : Int) ≤ 9 ∧
    category_severity_rank (priority_category 3) ≤
      category_severity_rank (priority_category 9) :=
  ⟨by decide, (priority_category_total_monotone 3 9 (by decide)).2.1⟩

/-- C4: `traffic_decision` returns exactly the fixed §6 advisory string for
each of the five categories; the five actions are pairwise distinct and
non-empty (so the mapping is a bijective 1:1 lookup over the categories);
and any label outside the five keys fails the dictionary lookup
(KeyError, modelled as `none`) rather than returning a value. -/
theorem traffic_decision_table (c : String)
    (h1 : c ≠ "CRITICAL") (h2 : c ≠ "VERY HIGH") (h3 : c ≠ "HIGH")
    (h4 : c ≠ "MEDIUM") (h5 : c ≠ "LOW") :
    traffic_decision c = none ∧
    traffic_decision "CRITICAL" = some "Immediate green corridor (override all signals)" ∧
    traffic_decision "VERY HIGH" = some "Green corridor with maximum preference" ∧
    traffic_decision "HIGH" = some "Green at next signal cycle" ∧
    traffic_decision "MEDIUM" = some "Partial priority at intersections" ∧
    traffic_decision "LOW" = some "Normal traffic flow" ∧
    traffic_decision "CRITICAL" ≠ traffic_decision "VERY HIGH" ∧
    traffic_decision "CRITICAL" ≠ traffic_decision "HIGH" ∧
    traffic_decision "CRITICAL" ≠ traffic_decision "MEDIUM" ∧
    traffic_decision "CRITICAL" ≠ traffic_decision "LOW" ∧
    traffic_decision "VERY HIGH" ≠ traffic_decision "HIGH" ∧
    traffic_decision "VERY HIGH" ≠ traffic_decision "MEDIUM" ∧
    traffic_decision "VERY HIGH" ≠ traffic_decision "LOW" ∧
    traffic_decision "HIGH" ≠ traffic_decision "MEDIUM" ∧
    traffic_decision "HIGH" ≠ traffic_decision "LOW" ∧
    traffic_decision "MEDIUM" ≠ traffic_decision "LOW" ∧
    traffic_decision "CRITICAL" ≠ some "" ∧
    traffic_decision "VERY HIGH" ≠ some "" ∧
    traffic_decision "HIGH" ≠ some "" ∧
    traffic_decision "MEDIUM" ≠ some "" ∧
    traffic_decision "LOW" ≠ some "" := by
  refine ⟨?_, by decide⟩
  unfold traffic_decision
  rw [if_neg h1, if_neg h2, if_neg h3, if_neg h4, if_neg h5]

/-- C4 witness at the unknown category "UNKNOWN". -/
theorem traffic_decision_table_witness :
    ("UNKNOWN" ≠ "CRITICAL" ∧ "UNKNOWN" ≠ "VERY HIGH" ∧ "UNKNOWN" ≠ "HIGH" ∧
     "UNKNOWN" ≠ "MEDIUM" ∧ "UNKNOWN" ≠ "LOW") ∧
    traffic_decision "UNKNOWN" = none := by
  have hk : "UNKNOWN" ≠ "CRITICAL" ∧ "UNKNOWN" ≠ "VERY HIGH" ∧
      "UNKNOWN" ≠ "HIGH" ∧ "UNKNOWN" ≠ "MEDIUM" ∧ "UNKNOWN" ≠ "LOW" := by
    decide
  exact ⟨hk, (traffic_decision_table "UNKNOWN" hk.1 hk.2.1 hk.2.2.1
    hk.2.2.2.1 hk.2.2.2.2).1⟩

/-- C5: the concrete cardiac-arrest scenario: base 5, spo2 risk 3,
heart-rate risk 2, deterioration risk 2, vital aggregate clamped to 5,
transit risk 2, raw sum 12 clamped to score 10, category CRITICAL. -/
theorem scenario_cardiac_arrest :
    base_medical_priority "cardiac_arrest" = 5 ∧
    spo2_risk 80 = 3 ∧
    heart_rate_risk 150 = 2 ∧
    deterioration_risk 90 80 = 2 ∧
    vital_risk_score 150 80 90 = 5 ∧
    time_to_hospital_risk 20 = 2 ∧
    base_medical_priority "cardiac_arrest" + vital_risk_score 150 80 90 +
      time_to_hospital_risk 20 = 12 ∧
    calculate_priority "cardiac_arrest" 150 80 90 20 = 10 ∧
    priority_category (calculate_priority "cardiac_arrest" 150 80 90 20) =
      "CRITICAL" := by
  decide

/-- C6: `base_medical_priority` returns exactly the fixed table values
(cardiac_arrest 5, stroke 4, severe_accident 4, trauma 3, minor_injury 1)
and the default 2 for every label outside the table, never failing. -/
theorem base_medical_priority_table (e : String)
    (h1 : e ≠ "cardiac_arrest") (h2 : e ≠ "stroke") (h3 : e ≠ "severe_accident")
    (h4 : e ≠ "trauma") (h5 : e ≠ "minor_injury") :
    base_medical_priority e = 2 ∧
    base_medical_priority "cardiac_arrest" = 5 ∧
    base_medical_priority "stroke" = 4 ∧
    base_medical_priority "severe_accident" = 4 ∧
    base_medical_priority "trauma" = 3 ∧
    base_medical_priority "minor_injury" = 1 := by
  refine ⟨?_, by decide⟩
  unfold base_medical_priority
  rw [if_neg h1, if_neg h2, if_neg h3, if_neg h4, if_neg h5]

/-- C6 witness at the unknown label "unknown_label". -/
theorem base_medical_priority_table_witness :
    ("unknown_label" ≠ "cardiac_arrest" ∧ "unknown_label" ≠ "stroke" ∧
     "unknown_label" ≠ "severe_accident" ∧ "unknown_label" ≠ "trauma" ∧
     "unknown_label" ≠ "minor_injury") ∧
    base_medical_priority "unknown_label" = 2 := by
  have hk : "unknown_label" ≠ "cardiac_arrest" ∧ "unknown_label" ≠ "stroke" ∧
      "unknown_label" ≠ "severe_accident" ∧ "unknown_label" ≠ "trauma" ∧
      "unknown_label" ≠ "minor_injury" := by
    decide
  exact ⟨hk, (base_medical_priority_table "unknown_label" hk.1 hk.2.1 hk.2.2.1
    hk.2.2.2.1 hk.2.2.2.2).1⟩

/-- C7: heart-rate risk is 2 when hr < 40 or hr > 130 (the first branch
fires even for values that also satisfy hr > 110), 1 when 110 < hr ≤ 130,
and 0 when 40 ≤ hr ≤ 110; in particular 131 > 110 yet yields 2. -/
theorem heart_rate_risk_bands (a b c : Int)
    (ha : a < 40 ∨ a > 130) (hb1 : 110 < b) (hb2 : b ≤ 130)
    (hc1 : 40 ≤ c) (hc2 : c ≤ 110) :
    heart_rate_risk a = 2 ∧ heart_rate_risk b = 1 ∧ heart_rate_risk c = 0 ∧
    (131 : Int) > 110 ∧ heart_rate_risk 131 = 2 := by
  refine ⟨?_, ?_, ?_, by decide⟩ <;>
    · unfold heart_rate_risk
      split_ifs <;> omega

/-- C7 witness at a = 9999 (also > 110), b = 120, c = 75. -/
theorem heart_rate_risk_bands_witness :
    ((9999 : Int) < 40 ∨ (9999 : Int) > 130) ∧
    ((110 : Int) < 120 ∧ (120 : Int) ≤ 130) ∧
    ((40 : Int) ≤ 75 ∧ (75 : Int) ≤ 110) ∧
    heart_rate_risk 9999 = 2 ∧ heart_rate_risk 120 = 1 ∧ heart_rate_risk 75 = 0 := by
  have ha : (9999 : Int) < 40 ∨ (9999 : Int) > 130 := Or.inr (by norm_num)
  have hb1 : (110 : Int) < 120 := by norm_num
  have hb2 : (120 : Int) ≤ 130 := by norm_num
  have hc1 : (40 : Int) ≤ 75 := by norm_num
  have hc2 : (75 : Int) ≤ 110 := by norm_num
  have h := heart_rate_risk_bands 9999 120 75 ha hb1 hb2 hc1 hc2
  exact ⟨ha, ⟨hb1, hb2⟩, ⟨hc1, hc2⟩, h.1, h.2.1, h.2.2.1⟩

/-- C8: with drop = previous_spo2 − spo2, the deterioration risk is 2 when
drop ≥ 5, 1 when 2 ≤ drop < 5, 0 otherwise; and whenever the saturation
improved (previous_spo2 < spo2, negative drop) the risk is exactly 0. -/
theorem deterioration_risk_bands (p1 c1 p2 c2 p3 c3 p4 c4 : Int)
    (h1 : p1 - c1 ≥ 5) (h2a : 2 ≤ p2 - c2) (h2b : p2 - c2 < 5)
    (h3 : p3 - c3 < 2) (h4 : p4 < c4) :
    deterioration_risk p1 c1 = 2 ∧ deterioration_risk p2 c2 = 1 ∧
    deterioration_risk p3 c3 = 0 ∧ deterioration_risk p4 c4 = 0 := by
  refine ⟨?_, ?_, ?_, ?_⟩ <;>
    · unfold deterioration_risk
      dsimp only
      split_ifs <;> omega

/-- C8 witness: drop 10, drop 3, drop 0, and an improvement (88 → 95). -/
theorem deterioration_risk_bands_witness :
    (90 : Int) - 80 ≥ 5 ∧ ((2 : Int) ≤ 95 - 92 ∧ (95 : Int) - 92 < 5) ∧
    (97 : Int) - 97 < 2 ∧ (88 : Int) < 95 ∧
    (deterioration_risk 90 80 = 2 ∧ deterioration_risk 95 92 = 1 ∧
     deterioration_risk 97 97 = 0 ∧ deterioration_risk 88 95 = 0) := by
  have h1 : (90 : Int) - 80 ≥ 5 := by norm_num
  have h2a : (2 : Int) ≤ 95 - 92 := by norm_num
  have h2b : (95 : Int) - 92 < 5 := by norm_num
  have h3 : (97 : Int) - 97 < 2 := by norm_num
  have h4 : (88 : Int) < 95 := by norm_num
  exact ⟨h1, ⟨h2a, h2b⟩, h3, h4,
    deterioration_risk_bands 90 80 95 92 97 97 88 95 h1 h2a h2b h3 h4⟩

/-- C9: spo2 risk is 3 below 85, 2 on [85,90), 1 on [90,94), 0 at 94 and
above, and is antitone in the saturation: s1 ≤ s2 implies
spo2_risk s1 ≥ spo2_risk s2 (the band values 3 > 2 > 1 > 0 make the
decrease strict from each band to the next). -/
theorem spo2_risk_bands_antitone (a b c d s1 s2 : Int)
    (ha : a < 85) (hb1 : 85 ≤ b) (hb2 : b < 90) (hc1 : 90 ≤ c) (hc2 : c < 94)
    (hd : 94 ≤ d) (hs : s1 ≤ s2) :
    spo2_risk a = 3 ∧ spo2_risk b = 2 ∧ spo2_risk c = 1 ∧ spo2_risk d = 0 ∧
    spo2_risk s2 ≤ spo2_risk s1 := by
  refine ⟨?_, ?_, ?_, ?_, ?_⟩ <;>
    · unfold spo2_risk
      split_ifs <;> omega

/-- C9 witness at a = 80, b = 87, c = 92, d = 97, s1 = 80, s2 = 97. -/
theorem spo2_risk_bands_antitone_witness :
    (80 : Int) < 85 ∧ ((85 : Int) ≤ 87 ∧ (87 : Int) < 90) ∧
    ((90 : Int) ≤ 92 ∧ (92 : Int) < 94) ∧ (94 : Int) ≤ 97 ∧ (80 : Int) ≤ 97 ∧
    spo2_risk 80 = 3 ∧ spo2_risk 97 ≤ spo2_risk 80 := by
  have ha : (80 : Int) < 85 := by norm_num
  have hb1 : (85 : Int) ≤ 87 := by norm_num
  have hb2 : (87 : Int) < 90 := by norm_num
  have hc1 : (90 : Int) ≤ 92 := by norm_num
  have hc2 : (92 : Int) < 94 := by norm_num
  have hd : (94 : Int) ≤ 97 := by norm_num
  have hs : (80 : Int) ≤ 97 := by norm_num
  have h := spo2_risk_bands_antitone 80 87 92 97 80 97 ha hb1 hb2 hc1 hc2 hd hs
  exact ⟨ha, ⟨hb1, hb2⟩, ⟨hc1, hc2⟩, hd, hs, h.1, h.2.2.2.2⟩

/-- C10: for every emergency_type string and all integer vital and ETA
inputs, `calculate_priority` returns at least 1 — the severity table's
minimum is 1, the unknown-label default is 2, and all risk components are
non-negative — so a score of 0 is unreachable through the entry point. -/
theorem calculate_priority_ge_one (e : String) (hr spo2 prev_spo2 eta : Int) :
    1 ≤ calculate_priority e hr spo2 prev_spo2 eta := by
  unfold calculate_priority
  have h1 := base_medical_priority_ge_one e
  have h2 := vital_risk_score_nonneg hr spo2 prev_spo2
  have h3 := time_to_hospital_risk_nonneg eta
  omega

end DynamicAI
